import Mathlib

/-!
Shallow embedding of `onnx_connx/backend.py` (the CONNX ONNX backend adapter).

The file embeds the data model (protobuf-like records), the compatibility
checker `is_compatible`, the preparation pipeline `prepare` (as a pure
function from an explicit environment to a result plus an ordered trace of
observable effects), the single-node harness `run_node`, and
`supports_device`.  External collaborators that are not part of the visible
source (`get_attrset`, `get_DataType`, `onnx.defs.onnx_opset_version`,
`shutil.which`, `onnx.checker.check_model`, the compiler and the
execution-representation object) are abstracted as parameters or recorded as
trace events.
-/

namespace OnnxConnx

/-- An ONNX `OperatorSetIdProto`: a (domain, version) opset declaration. -/
structure OperatorSetId where
  domain : String
  version : Int
deriving DecidableEq

/-- An ONNX `NodeProto`: name, operator type and ordered input/output slot names. -/
structure NodeProto where
  name : String
  op_type : String
  input : List String
  output : List String
deriving DecidableEq

/-- An ONNX `ValueInfoProto` as produced by `onnx.helper.make_tensor_value_info`:
a name, a tensor element type code and a shape (list of dimension sizes). -/
structure ValueInfo where
  name : String
  elem_type : Nat
  shape : List Int
deriving DecidableEq

/-- An ONNX `GraphProto`: name, node sequence and input/output value infos. -/
structure GraphProto where
  name : String
  node : List NodeProto
  input : List ValueInfo
  output : List ValueInfo
deriving DecidableEq

/-- An ONNX `ModelProto`: ir version, opset declarations and one graph. -/
structure ModelProto where
  ir_version : Int
  opset_import : List OperatorSetId
  graph : GraphProto
deriving DecidableEq

/-- The `TensorProto.DataType.FLOAT` element-type code. -/
def FLOAT : Nat := 1

/-- Modelled from the spec: the operator support table produced by the
Operator-Set Resolver `get_attrset` (module `onnx_connx.opset`, not among the
visible sources).  A Python dict mapping operator-type names to an attribute
set or to `None`: `none` means the key is absent from the dict, `some none`
means the key is present but explicitly mapped to `None` (no implementation),
and `some (some ())` means an available implementation. -/
def AttrSet : Type := String → Option (Option Unit)

/-- The per-node loop of `Backend.is_compatible`: returns `false` as soon as a
node's `op_type` is not in the table or is mapped to `None`, else `true`. -/
def checkNodes (attrset : AttrSet) : List NodeProto → Bool
  | [] => true
  | n :: rest =>
    match attrset n.op_type with
    | none => false
    | some none => false
    | some (some _) => checkNodes attrset rest

/-- `Backend.is_compatible`: builds the (domain, version) spec list from the
model's `opset_import`, resolves it through `get_attrset` (abstracted as the
parameter `get_attrset`), and scans the graph's nodes. -/
def is_compatible (get_attrset : List OperatorSetId → AttrSet)
    (model : ModelProto) : Bool :=
  checkNodes (get_attrset model.opset_import) model.graph.node

/-- The fixed ordered runtime search list `_CONNX_PATHS`. -/
def CONNX_PATHS : List String := ["onnx_connx/connx", "./connx", "connx"]

/-- The `for path in _CONNX_PATHS` loop of `Backend.prepare`, with
`shutil.which` abstracted as the boolean predicate `which`: returns the first
candidate on which `which` succeeds (the loop breaks there), or `none` when
no candidate resolves. -/
def find_connx (which : String → Bool) : List String → Option String
  | [] => none
  | p :: rest => if which p then some p else find_connx which rest

/-- The ordered list of candidates the loop actually consults: every
candidate up to and including the first match (all of them when none match). -/
def whichTrace (which : String → Bool) : List String → List String
  | [] => []
  | p :: rest => if which p then [p] else p :: whichTrace which rest

/-- Observable effects of `Backend.prepare`, in program order:
`checkModel` is the call to `onnx.checker.check_model`, `whichQuery p` a call
to `shutil.which(p)`, `makedirs p` the call `os.makedirs(p, exist_ok=True)`,
and `compile m p` the call `compile_from_model(m, p)`. -/
inductive Event where
  | checkModel : Event
  | whichQuery : String → Event
  | makedirs : String → Event
  | compile : ModelProto → String → Event
deriving DecidableEq

/-- Errors `Backend.prepare` can raise.  `validationError` is the exception
propagated from `onnx.checker.check_model`.  `unboundLocalError` is the
Python `UnboundLocalError` raised at the line `if connx_path is None` when
the search loop never assigned `connx_path`; the explicit
`raise Exception(f'Cannot find connx ...')` below that line is unreachable,
which `cannotFindConnx` records for documentation. -/
inductive PrepError where
  | validationError : PrepError
  | unboundLocalError : String → PrepError
  | cannotFindConnx : List String → PrepError
deriving DecidableEq

/-- The execution-representation handle returned by `Backend.prepare`
(`BackendRep(connx_path, model_path)` or
`BackendRep(connx_path, model_path, delete_path=True)`); `delete_path`
defaults to `False`, and per the spec the adapter removes the directory tree
exactly when it is `True` (pipeline-owned temporary artifact). -/
structure BackendRep where
  connx_path : String
  model_path : String
  delete_path : Bool
deriving DecidableEq

/-- The explicit environment of one `Backend.prepare` call: the model, whether
`onnx.checker.check_model` accepts it, the behaviour of `shutil.which`, the
`out` keyword option if supplied, `tempfile.gettempdir()`, and the string
rendering of the sampled `time.time() + random.random()` value. -/
structure PrepInput where
  model : ModelProto
  checkOk : Bool
  which : String → Bool
  out : Option String
  tempdir : String
  stamp : String

/-- The observable outcome of one `Backend.prepare` call: the returned handle
or raised error, the ordered effect trace, and the state of the caller's
model object after the call (it is mutated in place). -/
structure PrepOutcome where
  result : Except PrepError BackendRep
  events : List Event
  finalModel : ModelProto

/-- The default opset declaration injected by `prepare`: empty domain, version 1. -/
def default_opset : OperatorSetId := { domain := "", version := 1 }

/-- The `if len(model.opset_import) == 0` block of `Backend.prepare`:
appends the default declaration to an empty `opset_import`. -/
def injectDefaultOpset (m : ModelProto) : ModelProto :=
  if m.opset_import = [] then
    { m with opset_import := m.opset_import ++ [default_opset] }
  else m

/-- The temporary artifact path
`os.path.join(tempfile.gettempdir(), f'connx.\x7btime.time() + random.random()\x7d')`,
with the rendered float sum abstracted as the string `stamp`. -/
def temp_model_path (tempdir stamp : String) : String :=
  tempdir ++ "/connx." ++ stamp

/-- `Backend.prepare`.  Control flow of the source, in order:
`onnx.checker.check_model(model)` (abort on failure); default-opset
injection; the `_CONNX_PATHS` search loop (on failure, `UnboundLocalError`
at the `if connx_path is None` test); then either the `out` branch — note
the source calls `os.makedirs(path, exist_ok=True)` on the loop variable
`path`, which after a successful search equals the matched connx candidate,
not on `model_path` — or the temporary-directory branch, each ending in
`compile_from_model` and a `BackendRep`. -/
def prepare (inp : PrepInput) : PrepOutcome :=
  if inp.checkOk = false then
    { result := Except.error PrepError.validationError
      events := [Event.checkModel]
      finalModel := inp.model }
  else
    let m := injectDefaultOpset inp.model
    let trace := (whichTrace inp.which CONNX_PATHS).map Event.whichQuery
    match find_connx inp.which CONNX_PATHS with
    | none =>
      { result := Except.error (PrepError.unboundLocalError "connx_path")
        events := Event.checkModel :: trace
        finalModel := m }
    | some connx_path =>
      match inp.out with
      | some model_path =>
        { result := Except.ok
            { connx_path := connx_path, model_path := model_path, delete_path := false }
          events := Event.checkModel :: trace ++
            [Event.makedirs connx_path, Event.compile m model_path]
          finalModel := m }
      | none =>
        let model_path := temp_model_path inp.tempdir inp.stamp
        { result := Except.ok
            { connx_path := connx_path, model_path := model_path, delete_path := true }
          events := Event.checkModel :: trace ++ [Event.compile m model_path]
          finalModel := m }

/-- A tensor input to `run_node`: a numpy array's dtype name and shape
(the only attributes the source consults). -/
structure TensorValue where
  dtype : String
  shape : List Int
deriving DecidableEq

/-- The synthetic model built by `Backend.run_node`.  `opset_version` stands
for `onnx.defs.onnx_opset_version()` (the latest known operator-set version),
`ir` for `onnx.IR_VERSION`, and `get_DataType` — modelled from the spec:
the dtype-to-element-type mapping `get_DataType` of `onnx_connx/__init__.py`
is not among the visible sources — maps a numpy dtype to an ONNX element-type
code.  Inputs are paired with node input slot names by
`zip(inputs, node.input)`; each node output slot gets a `FLOAT` value info of
shape `[0]`. -/
def build_node_model (opset_version ir : Int) (get_DataType : String → Nat)
    (node : NodeProto) (inputs : List TensorValue) : ModelProto :=
  { ir_version := ir
    opset_import := [{ domain := "", version := opset_version }]
    graph :=
      { name := node.name ++ " test (auto generated by connx backend)"
        node := [node]
        input := (List.zip inputs node.input).map
          (fun x => { name := x.2, elem_type := get_DataType x.1.dtype, shape := x.1.shape })
        output := node.output.map
          (fun nm => { name := nm, elem_type := FLOAT, shape := [0] }) } }

/-- `Backend.run_node`: builds the synthetic single-node model and hands it to
`run_model` (abstracted as the parameter `run_model`, since it funnels into
`prepare` and the external execution adapter); returns the synthesized model
together with the run result.  The `outputs_info` argument mirrors the
source's parameter of the same position. -/
def run_node {R : Type} (opset_version ir : Int) (get_DataType : String → Nat)
    (run_model : ModelProto → List TensorValue → String → R)
    (node : NodeProto) (inputs : List TensorValue) (device : String)
    (outputs_info : Option (List (String × List Int))) : ModelProto × R :=
  let m := build_node_model opset_version ir get_DataType node inputs
  (m, run_model m inputs device)

/-- `Backend.supports_device`: `device in ['CPU', 'cpu']`. -/
def supports_device (device : String) : Bool :=
  ["CPU", "cpu"].contains device

/-- A small structurally valid model used as a concrete `prepare` input. -/
def c2_model : ModelProto :=
  { ir_version := 7
    opset_import := []
    graph := { name := "g", node := [], input := [], output := [] } }

/-- Concrete environment for the default-opset-injection observation:
empty `opset_import`, validator accepts, connx found at the last candidate. -/
def c2_input : PrepInput :=
  { model := c2_model, checkOk := true, which := fun s => s == "connx"
    out := none, tempdir := "/tmp", stamp := "2.5" }

/-- A small model with a non-empty opset declaration list. -/
def c3_model : ModelProto :=
  { ir_version := 7
    opset_import := [{ domain := "", version := 13 }]
    graph := { name := "g", node := [], input := [], output := [] } }

/-- Concrete environment for the explicit-`out` branch: the validator accepts,
connx resolves at the first candidate "onnx_connx/connx", and the caller
supplies `out='/tmp/outdir'`. -/
def c3_input : PrepInput :=
  { model := c3_model, checkOk := true, which := fun s => s == "onnx_connx/connx"
    out := some "/tmp/outdir", tempdir := "/tmp", stamp := "0" }

/-- Concrete environment in which no runtime candidate resolves. -/
def c4_input : PrepInput :=
  { model := c3_model, checkOk := true, which := fun _ => false
    out := some "/tmp/outdir", tempdir := "/tmp", stamp := "3.5" }

/-- Concrete environment in which structural validation fails. -/
def c5_input : PrepInput :=
  { model := c3_model, checkOk := false, which := fun s => s == "connx"
    out := none, tempdir := "/tmp", stamp := "1.5" }

/-- A concrete two-input one-output node for the single-node harness. -/
def c6_node : NodeProto :=
  { name := "Add0", op_type := "Add", input := ["A", "B"], output := ["C"] }

/-- Two concrete sample tensors for the single-node harness. -/
def c6_inputs : List TensorValue :=
  [{ dtype := "float32", shape := [2, 3] }, { dtype := "float64", shape := [3] }]

/-- A small model for the temporary-directory naming observations. -/
def c7_model : ModelProto :=
  { ir_version := 7
    opset_import := [{ domain := "", version := 13 }]
    graph := { name := "g", node := [], input := [], output := [] } }

/-- First `prepare` call of a colliding pair: no `out`, connx at "connx",
sampled stamp "1700000000.25". -/
def c7_inputA : PrepInput :=
  { model := c7_model, checkOk := true, which := fun s => s == "connx"
    out := none, tempdir := "/tmp", stamp := "1700000000.25" }

/-- Second `prepare` call of the colliding pair: a different environment
(connx now resolves at "./connx") whose sampled stamp happens to repeat. -/
def c7_inputB : PrepInput :=
  { model := c7_model, checkOk := true, which := fun s => s == "./connx"
    out := none, tempdir := "/tmp", stamp := "1700000000.25" }

/-- A second `prepare` call whose sampled stamp differs from `c7_inputA`. -/
def c7_inputC : PrepInput :=
  { model := c7_model, checkOk := true, which := fun s => s == "connx"
    out := none, tempdir := "/tmp", stamp := "1700000000.75" }

/-- The handle returned by `prepare c7_inputA`. -/
def c7_repA : BackendRep :=
  { connx_path := "connx", model_path := "/tmp/connx.1700000000.25", delete_path := true }

/-- The handle returned by `prepare c7_inputC`. -/
def c7_repC : BackendRep :=
  { connx_path := "connx", model_path := "/tmp/connx.1700000000.75", delete_path := true }

/-- An operator-type name is unavailable in a support table when it is either
absent from the table or explicitly mapped to the no-implementation marker. -/
def unsupported (attrset : AttrSet) (op : String) : Prop :=
  attrset op = none ∨ attrset op = some none

theorem checkNodes_eq_false_iff (attrset : AttrSet) (ns : List NodeProto) :
    checkNodes attrset ns = false ↔ ∃ n ∈ ns, unsupported attrset n.op_type := by
  induction ns with
  | nil => simp [checkNodes]
  | cons n rest ih =>
    cases h : attrset n.op_type with
    | none =>
      simp only [checkNodes, h]
      exact iff_of_true trivial ⟨n, List.mem_cons_self n rest, Or.inl h⟩
    | some v =>
      cases v with
      | none =>
        simp only [checkNodes, h]
        exact iff_of_true trivial ⟨n, List.mem_cons_self n rest, Or.inr h⟩
      | some u =>
        simp only [checkNodes, h]
        rw [ih]
        constructor
        · rintro ⟨m, hm, hu⟩
          exact ⟨m, List.mem_cons_of_mem n hm, hu⟩
        · rintro ⟨m, hm, hu⟩
          rcases List.mem_cons.mp hm with heq | hmem
          · subst heq
            rcases hu with h1 | h1 <;> rw [h] at h1 <;> simp at h1
          · exact ⟨m, hmem, hu⟩

/-- C1: for every resolver and model, `is_compatible` returns `false` exactly
when some node of the model's graph has an operator-type name that is absent
from the support table resolved from the model's opset declarations or mapped
to the explicit no-implementation marker; otherwise — in particular whenever
the node sequence is empty, where the right-hand side is unsatisfiable — it
returns `true`. -/
theorem is_compatible_false_iff_some_node_unsupported
    (get_attrset : List OperatorSetId → AttrSet) (model : ModelProto) :
    is_compatible get_attrset model = false ↔
      ∃ n ∈ model.graph.node,
        unsupported (get_attrset model.opset_import) n.op_type := by
  exact checkNodes_eq_false_iff (get_attrset model.opset_import) model.graph.node

/-- C10: `supports_device` accepts exactly the strings "CPU" and "cpu". -/
theorem supports_device_iff (device : String) :
    supports_device device = true ↔ device = "CPU" ∨ device = "cpu" := by
  simp [supports_device]

/-- C9: `run_node` ignores `outputs_info` entirely — for any two values of
that argument, the synthesized model and the returned result coincide. -/
theorem run_node_independent_of_outputs_info {R : Type}
    (opset_version ir : Int) (get_DataType : String → Nat)
    (run_model : ModelProto → List TensorValue → String → R)
    (node : NodeProto) (inputs : List TensorValue) (device : String)
    (oi1 oi2 : Option (List (String × List Int))) :
    run_node opset_version ir get_DataType run_model node inputs device oi1 =
      run_node opset_version ir get_DataType run_model node inputs device oi2 := rfl

/-- C8: the runtime locator scans the candidate list in order: when every
candidate of a prefix fails to resolve and the next candidate `p` resolves,
the loop selects `p`, and the candidates actually consulted are exactly the
failing prefix followed by `p` — independent of whatever follows, so no later
candidate is examined once one resolves. -/
theorem find_connx_first_match (which : String → Bool)
    (pre rest : List String) (p : String)
    (hpre : ∀ q ∈ pre, which q = false) (hp : which p = true) :
    find_connx which (pre ++ p :: rest) = some p ∧
      whichTrace which (pre ++ p :: rest) = pre ++ [p] := by
  induction pre with
  | nil => simp [find_connx, whichTrace, hp]
  | cons q qs ih =>
    have hq : which q = false := hpre q (List.mem_cons_self q qs)
    have hqs : ∀ r ∈ qs, which r = false :=
      fun r hr => hpre r (List.mem_cons_of_mem q hr)
    rcases ih hqs with ⟨h1, h2⟩
    simp [find_connx, whichTrace, hq, h1, h2]

/-- Witness for C8 on the fixed list `_CONNX_PATHS`: with an executable found
only at the second candidate "./connx", the locator returns it and consults
exactly the first two candidates. -/
theorem find_connx_first_match_witness :
    (∀ q ∈ ["onnx_connx/connx"], (fun s => s == "./connx") q = false) ∧
      (fun s => s == "./connx") "./connx" = true ∧
      (find_connx (fun s => s == "./connx")
          (["onnx_connx/connx"] ++ "./connx" :: ["connx"]) = some "./connx" ∧
        whichTrace (fun s => s == "./connx")
          (["onnx_connx/connx"] ++ "./connx" :: ["connx"]) =
            ["onnx_connx/connx"] ++ ["./connx"]) :=
  ⟨by decide, by decide,
    find_connx_first_match (fun s => s == "./connx") ["onnx_connx/connx"]
      ["connx"] "./connx" (by decide) (by decide)⟩

theorem find_connx_eq_none (which : String → Bool) (l : List String)
    (h : ∀ p ∈ l, which p = false) : find_connx which l = none := by
  induction l with
  | nil => rfl
  | cons p rest ih =>
    have hp : which p = false := h p (List.mem_cons_self p rest)
    simp [find_connx, hp]
    exact ih fun q hq => h q (List.mem_cons_of_mem p hq)

theorem prepare_finalModel_of_checkOk (inp : PrepInput)
    (hok : inp.checkOk = true) :
    (prepare inp).finalModel = injectDefaultOpset inp.model := by
  unfold prepare
  rcases hfc : find_connx inp.which CONNX_PATHS with _ | p
  · simp [hok, hfc]
  · rcases hout : inp.out with _ | o <;> simp [hok, hfc, hout]

theorem compile_event_model_eq (inp : PrepInput) (m : ModelProto) (p : String)
    (h : Event.compile m p ∈ (prepare inp).events) :
    m = injectDefaultOpset inp.model := by
  unfold prepare at h
  rcases hc : inp.checkOk with _ | _
  · simp [hc] at h
  · rcases hfc : find_connx inp.which CONNX_PATHS with _ | cp
    · simp [hc, hfc] at h
    · rcases hout : inp.out with _ | o <;> simp [hc, hfc, hout] at h
      · exact h.1
      · exact h.1

/-- C5: when structural validation rejects the model, `prepare` raises the
validation failure, the caller's model is unchanged, and the effect trace
holds nothing beyond the validation call itself — no opset injection, no
runtime lookup, no directory creation, no compiler invocation. -/
theorem prepare_validation_failure_no_side_effects (inp : PrepInput)
    (h : inp.checkOk = false) :
    (prepare inp).result = Except.error PrepError.validationError ∧
      (prepare inp).finalModel = inp.model ∧
      (prepare inp).events = [Event.checkModel] := by
  refine ⟨?_, ?_, ?_⟩ <;> simp [prepare, h]

/-- Witness for C5 at a concrete rejected model. -/
theorem prepare_validation_failure_witness :
    c5_input.checkOk = false ∧
      ((prepare c5_input).result = Except.error PrepError.validationError ∧
        (prepare c5_input).finalModel = c5_input.model ∧
        (prepare c5_input).events = [Event.checkModel]) :=
  ⟨rfl, prepare_validation_failure_no_side_effects c5_input rfl⟩

/-- C2: on a validated model with no opset declarations, `prepare` makes the
caller's model carry exactly the one default declaration (empty domain,
version 1), and every compiler invocation in the trace receives the model in
exactly that mutated state. -/
theorem prepare_injects_single_default_opset (inp : PrepInput)
    (hok : inp.checkOk = true) (he : inp.model.opset_import = []) :
    (prepare inp).finalModel =
        { inp.model with opset_import := [default_opset] } ∧
      ∀ m p, Event.compile m p ∈ (prepare inp).events →
        m = { inp.model with opset_import := [default_opset] } := by
  have hino : injectDefaultOpset inp.model =
      { inp.model with opset_import := [default_opset] } := by
    simp [injectDefaultOpset, he]
  exact ⟨(prepare_finalModel_of_checkOk inp hok).trans hino,
    fun m p hmem => (compile_event_model_eq inp m p hmem).trans hino⟩

/-- Witness for C2: a concrete declaration-free model, prepared in an
environment where connx is found and compilation is reached. -/
theorem prepare_injects_single_default_opset_witness :
    c2_input.checkOk = true ∧ c2_input.model.opset_import = [] ∧
      ((prepare c2_input).finalModel =
          { c2_input.model with opset_import := [default_opset] } ∧
        ∀ m p, Event.compile m p ∈ (prepare c2_input).events →
          m = { c2_input.model with opset_import := [default_opset] }) :=
  ⟨rfl, rfl, prepare_injects_single_default_opset c2_input rfl rfl⟩

/-- C4: whenever no candidate of the fixed runtime search list resolves to an
executable, `prepare` ends in an error and its effect trace holds no
directory creation and no compiler invocation. -/
theorem prepare_aborts_before_artifacts_when_no_connx (inp : PrepInput)
    (h : ∀ p ∈ CONNX_PATHS, inp.which p = false) :
    (∃ e, (prepare inp).result = Except.error e) ∧
      ∀ ev ∈ (prepare inp).events,
        (∀ s, ev ≠ Event.makedirs s) ∧ ∀ m s, ev ≠ Event.compile m s := by
  have hfc : find_connx inp.which CONNX_PATHS = none :=
    find_connx_eq_none inp.which CONNX_PATHS h
  rcases hc : inp.checkOk with _ | _
  · refine ⟨⟨PrepError.validationError, by simp [prepare, hc]⟩, ?_⟩
    intro ev hev
    simp [prepare, hc] at hev
    subst hev
    exact ⟨by simp, by simp⟩
  · refine ⟨⟨PrepError.unboundLocalError "connx_path", by simp [prepare, hc, hfc]⟩, ?_⟩
    intro ev hev
    simp [prepare, hc, hfc] at hev
    rcases hev with he | ⟨q, _, hq⟩
    · subst he
      exact ⟨by simp, by simp⟩
    · subst hq
      exact ⟨by simp, by simp⟩

/-- Witness for C4: an environment where `which` fails on every candidate. -/
theorem prepare_aborts_when_no_connx_witness :
    (∀ p ∈ CONNX_PATHS, c4_input.which p = false) ∧
      ((∃ e, (prepare c4_input).result = Except.error e) ∧
        ∀ ev ∈ (prepare c4_input).events,
          (∀ s, ev ≠ Event.makedirs s) ∧ ∀ m s, ev ≠ Event.compile m s) :=
  ⟨by decide, prepare_aborts_before_artifacts_when_no_connx c4_input (by decide)⟩

/-- C3 (code evaluation at the failing input): with `out='/tmp/outdir'` and
connx resolved at "onnx_connx/connx", the directory-creation call targets
"onnx_connx/connx" — the runtime-search loop variable — and the supplied
output path is never created, although the compiler is invoked with
'/tmp/outdir' and the returned handle is caller-owned (`delete_path` false). -/
theorem prepare_out_branch_makedirs_wrong_path :
    (prepare c3_input).events =
        [Event.checkModel, Event.whichQuery "onnx_connx/connx",
         Event.makedirs "onnx_connx/connx", Event.compile c3_model "/tmp/outdir"] ∧
      Event.makedirs "/tmp/outdir" ∉ (prepare c3_input).events ∧
      (prepare c3_input).result = Except.ok
        { connx_path := "onnx_connx/connx", model_path := "/tmp/outdir"
          delete_path := false } :=
  ⟨rfl, by decide, rfl⟩

/-- C6: under the matching-arity hypothesis, the synthetic single-node model
holds exactly the supplied node, exactly one empty-domain declaration at the
latest known opset version, one input value-info per positional input pairing
the node's input slot name with that tensor's element type and shape, and one
output value-info per node output slot with the FLOAT element type and the
rank-1 size-0 shape `[0]`. -/
theorem run_node_synthesized_model (opset_version ir : Int)
    (get_DataType : String → Nat) (node : NodeProto) (inputs : List TensorValue)
    (h : node.input.length = inputs.length) :
    (build_node_model opset_version ir get_DataType node inputs).graph.node = [node] ∧
      (build_node_model opset_version ir get_DataType node inputs).opset_import =
        [{ domain := "", version := opset_version }] ∧
      (build_node_model opset_version ir get_DataType node inputs).graph.input.length =
        inputs.length ∧
      (∀ (i : Nat) (t : TensorValue) (nm : String),
        inputs[i]? = some t → node.input[i]? = some nm →
        (build_node_model opset_version ir get_DataType node inputs).graph.input[i]? =
          some { name := nm, elem_type := get_DataType t.dtype, shape := t.shape }) ∧
      (build_node_model opset_version ir get_DataType node inputs).graph.output =
        node.output.map (fun nm => { name := nm, elem_type := FLOAT, shape := [0] }) := by
  refine ⟨rfl, rfl, ?_, ?_, rfl⟩
  · simp [build_node_model, h]
  · intro i t nm ht hnm
    simp [build_node_model, List.getElem?_zip_eq_some, ht, hnm]
    exact ⟨t, nm, ⟨rfl, rfl⟩, rfl, rfl, rfl⟩

/-- Witness for C6: a two-input one-output node with two sample tensors. -/
theorem run_node_synthesized_model_witness :
    c6_node.input.length = c6_inputs.length ∧
      ((build_node_model 23 7 (fun _ => 1) c6_node c6_inputs).graph.node = [c6_node] ∧
        (build_node_model 23 7 (fun _ => 1) c6_node c6_inputs).opset_import =
          [{ domain := "", version := 23 }] ∧
        (build_node_model 23 7 (fun _ => 1) c6_node c6_inputs).graph.input.length =
          c6_inputs.length ∧
        (∀ (i : Nat) (t : TensorValue) (nm : String),
          c6_inputs[i]? = some t → c6_node.input[i]? = some nm →
          (build_node_model 23 7 (fun _ => 1) c6_node c6_inputs).graph.input[i]? =
            some { name := nm, elem_type := (fun _ => 1) t.dtype, shape := t.shape }) ∧
        (build_node_model 23 7 (fun _ => 1) c6_node c6_inputs).graph.output =
          c6_node.output.map (fun nm => { name := nm, elem_type := FLOAT, shape := [0] })) :=
  ⟨rfl, run_node_synthesized_model 23 7 (fun _ => 1) c6_node c6_inputs rfl⟩

theorem prepare_ok_no_out_model_path (inp : PrepInput) (r : BackendRep)
    (hout : inp.out = none) (hr : (prepare inp).result = Except.ok r) :
    r.model_path = temp_model_path inp.tempdir inp.stamp := by
  unfold prepare at hr
  rcases hc : inp.checkOk with _ | _
  · simp [hc] at hr
  · rcases hfc : find_connx inp.which CONNX_PATHS with _ | p
    · simp [hc, hfc] at hr
    · simp [hc, hfc, hout] at hr
      rw [← hr]

theorem temp_model_path_inj (td s1 s2 : String)
    (h : temp_model_path td s1 = temp_model_path td s2) : s1 = s2 := by
  unfold temp_model_path at h
  have h2 := congrArg String.data h
  simp [String.data_append] at h2
  exact String.ext h2

/-- C7 counterexample: two `prepare` calls on the same model with no explicit
output directory, in two different environments (connx resolves at a
different candidate in each) whose sampled time-plus-random stamps coincide,
synthesize the very same temporary artifact path — the naming scheme does not
make collisions impossible by construction. -/
theorem prepare_same_stamp_temp_paths_collide :
    (prepare c7_inputA).result = Except.ok
        { connx_path := "connx", model_path := "/tmp/connx.1700000000.25"
          delete_path := true } ∧
      (prepare c7_inputB).result = Except.ok
        { connx_path := "./connx", model_path := "/tmp/connx.1700000000.25"
          delete_path := true } :=
  ⟨rfl, rfl⟩

/-- C7 as amended: two `prepare` calls with no explicit output directory and
the same temporary root synthesize distinct artifact paths whenever their
sampled time-plus-random stamps differ; distinctness is exactly as strong as
the distinctness of the sampled stamps, not unconditional. -/
theorem prepare_distinct_stamps_distinct_temp_paths
    (inp1 inp2 : PrepInput) (r1 r2 : BackendRep)
    (h1 : inp1.out = none) (h2 : inp2.out = none)
    (htd : inp1.tempdir = inp2.tempdir) (hs : inp1.stamp ≠ inp2.stamp)
    (hr1 : (prepare inp1).result = Except.ok r1)
    (hr2 : (prepare inp2).result = Except.ok r2) :
    r1.model_path ≠ r2.model_path := by
  rw [prepare_ok_no_out_model_path inp1 r1 h1 hr1,
    prepare_ok_no_out_model_path inp2 r2 h2 hr2, htd]
  intro hpath
  exact hs (temp_model_path_inj inp2.tempdir inp1.stamp inp2.stamp hpath)

/-- Witness for the amended C7: two concrete calls with distinct stamps. -/
theorem prepare_distinct_stamps_witness :
    c7_inputA.out = none ∧ c7_inputC.out = none ∧
      c7_inputA.tempdir = c7_inputC.tempdir ∧ c7_inputA.stamp ≠ c7_inputC.stamp ∧
      (prepare c7_inputA).result = Except.ok c7_repA ∧
      (prepare c7_inputC).result = Except.ok c7_repC ∧
      c7_repA.model_path ≠ c7_repC.model_path :=
  ⟨rfl, rfl, rfl, by decide, rfl, rfl,
    prepare_distinct_stamps_distinct_temp_paths c7_inputA c7_inputC c7_repA c7_repC
      rfl rfl rfl (by decide) rfl rfl⟩

end OnnxConnx
